import Mathlib

/-!
Verification of the context-aware recommendation and caching core of the
sonic-aura-stream repository, as a shallow embedding in Lean.

The embedding mirrors, function by function, the logic of
`src/services/spotifyService.ts` (token cache, catalog search, track
normalization), `src/data/realSongs.ts` (the static fallback catalog),
`src/hooks/useSpotify.ts` (the recommendation fallback path),
`src/pages/Social.tsx` (timestamp comments, likes, active-comment matching),
`src/pages/Recommendations.tsx` (the time-of-day bucket) and the
`TimestampComments` component (per-track comment store with sorted listing).

Network effects are made explicit: each function that performs a request takes
the outcome the remote would produce as an argument and reports how many
requests it issued, so that claims about retries and cached short-circuits can
be stated directly.
-/

namespace SpotifyService

/-- Outcome of one request to the token endpoint as observed by the client.
`unreachable` models a thrown `fetch` or `response.json()` (network failure or
a body that is not JSON); `payload` models any parsed JSON body together with
the HTTP status code the response carried.  `access_token` / `expires_in` are
`none` when the corresponding field is missing from the body. -/
inductive TokenFetchOutcome where
  | unreachable : TokenFetchOutcome
  | payload (status : Nat) (access_token : Option String) (expires_in : Option Int) : TokenFetchOutcome
deriving DecidableEq

/-- The module-level mutable pair `accessToken` / `tokenExpiry` of
`spotifyService.ts`.  `tokenExpiry = none` models the `NaN` produced when the
payload lacks `expires_in` (every `<` comparison against `NaN` is false). -/
structure TokenState where
  accessToken : String
  tokenExpiry : Option Int
deriving DecidableEq

/-- The initial module state: `accessToken = ''`, `tokenExpiry = 0`. -/
def initialTokenState : TokenState := { accessToken := "", tokenExpiry := some 0 }

/-- The cache guard `accessToken && Date.now() < tokenExpiry` (an empty token
string is falsy in JS). -/
def cacheValid (s : TokenState) (now : Int) : Bool :=
  (s.accessToken != "") &&
    (match s.tokenExpiry with
     | some e => now < e
     | none => false)

/-- What one call to `getSpotifyToken` produces: the returned value (or the
propagated exception), the module state afterwards, and how many requests were
made to the token endpoint. -/
structure TokenResult where
  result : Except Unit String
  state : TokenState
  tokenCalls : Nat

/-- `getSpotifyToken` from `spotifyService.ts`.  If the cached token is valid
it is returned with no network call.  Otherwise one request is made: if it is
unreachable the exception propagates (`Except.error`) and the state is left
untouched; any parsed payload is accepted without inspecting its HTTP status,
`data.access_token || ''` becomes `tok.getD ""` and
`Date.now() + data.expires_in * 1000 - 60000` becomes the mapped expiry
(missing `expires_in` gives the `NaN` expiry `none`). -/
def getSpotifyToken (fetchToken : TokenFetchOutcome) (now : Int) (s : TokenState) : TokenResult :=
  if cacheValid s now then
    { result := Except.ok s.accessToken, state := s, tokenCalls := 0 }
  else
    match fetchToken with
    | TokenFetchOutcome.unreachable =>
        { result := Except.error (), state := s, tokenCalls := 1 }
    | TokenFetchOutcome.payload _ tok exp =>
        let newTok := tok.getD ""
        { result := Except.ok newTok,
          state := { accessToken := newTok,
                     tokenExpiry := exp.map (fun e => now + e * 1000 - 60000) },
          tokenCalls := 1 }

/-- The `external_urls` object of a remote track record. -/
structure RemoteExternalUrls where
  spotify : String
deriving DecidableEq

/-- One entry of a remote record's artist array. -/
structure RemoteArtist where
  name : String
deriving DecidableEq

/-- One entry of a remote album's image array. -/
structure RemoteImage where
  url : String
deriving DecidableEq

/-- The nested album object of a remote track record. -/
structure RemoteAlbum where
  name : String
  images : List RemoteImage
deriving DecidableEq

/-- A remote track record as returned by the catalog search endpoint. -/
structure RemoteTrack where
  id : String
  name : String
  artists : List RemoteArtist
  album : RemoteAlbum
  duration_ms : Nat
  preview_url : Option String
  external_urls : RemoteExternalUrls
  popularity : Nat
deriving DecidableEq

/-- Outcome of one request to the search endpoint.  `items = none` models a
body on which `data.tracks.items` throws (for example the error object the
remote sends with a 401/403 status). -/
inductive SearchFetchOutcome where
  | unreachable : SearchFetchOutcome
  | payload (status : Nat) (items : Option (List RemoteTrack)) : SearchFetchOutcome
deriving DecidableEq

/-- What one call to `searchTracks` produces: the returned list (the source
catches every exception and returns `[]`, so there is no error case), the
token-cache state afterwards, and how many requests went to the token endpoint
and to the search endpoint respectively. -/
structure SearchResult where
  tracks : List RemoteTrack
  state : TokenState
  tokenCalls : Nat
  searchCalls : Nat

/-- `searchTracks` from `spotifyService.ts`.  A token is obtained first; if
that throws, the catch-all returns `[]` without touching the search endpoint.
Otherwise exactly one search request is made; its status code is never
inspected, a body without `tracks.items` throws inside the `try` and the
catch-all again returns `[]`.  No token refresh and no retry exist in the
source. -/
def searchTracks (fetchToken : TokenFetchOutcome) (fetchSearch : SearchFetchOutcome)
    (now : Int) (s : TokenState) : SearchResult :=
  match getSpotifyToken fetchToken now s with
  | { result := Except.error _, state := s1, tokenCalls := n } =>
      { tracks := [], state := s1, tokenCalls := n, searchCalls := 0 }
  | { result := Except.ok _, state := s1, tokenCalls := n } =>
      match fetchSearch with
      | SearchFetchOutcome.unreachable =>
          { tracks := [], state := s1, tokenCalls := n, searchCalls := 1 }
      | SearchFetchOutcome.payload _ none =>
          { tracks := [], state := s1, tokenCalls := n, searchCalls := 1 }
      | SearchFetchOutcome.payload _ (some items) =>
          { tracks := items, state := s1, tokenCalls := n, searchCalls := 1 }

/-- `seconds.toString().padStart(2, '0')` of `formatDuration`. -/
def padStartTwo (s : String) : String :=
  if s.length ≥ 2 then s else if s.length = 1 then "0" ++ s else "00"

/-- `formatDuration` from `spotifyService.ts`: minutes by floor division of
milliseconds, seconds zero-padded to two digits. -/
def formatDuration (ms : Nat) : String :=
  toString (ms / 60000) ++ ":" ++ padStartTwo (toString (ms % 60000 / 1000))

/-- The canonical track shape produced by `formatTrack`. -/
structure FormattedTrack where
  id : String
  title : String
  artist : String
  album : String
  duration : String
  albumArt : String
  previewUrl : Option String
  spotifyUrl : String
  popularity : Nat
deriving DecidableEq

/-- `formatTrack` from `spotifyService.ts`.  The artwork line mirrors
`track.album.images[0]?.url || '/placeholder.svg'` including the JS truthiness
of `||`: an empty-string url, like an empty image list, yields the
placeholder. -/
def formatTrack (t : RemoteTrack) : FormattedTrack :=
  { id := t.id
    title := t.name
    artist := String.intercalate ", " (t.artists.map RemoteArtist.name)
    album := t.album.name
    duration := formatDuration t.duration_ms
    albumArt :=
      match t.album.images with
      | [] => "/placeholder.svg"
      | i :: _ => if i.url = "" then "/placeholder.svg" else i.url
    previewUrl := t.preview_url
    spotifyUrl := t.external_urls.spotify
    popularity := t.popularity }

end SpotifyService

namespace RealSongs

/-- The `Song` interface of `realSongs.ts`. -/
structure Song where
  id : String
  title : String
  artist : String
  album : String
  duration : String
  albumArt : String
  genre : String
  mood : String
  spotifyId : Option String
  previewUrl : Option String
deriving DecidableEq

/-- The `happySongs` list of `realSongs.ts`. -/
def happySongs : List Song :=
  [⟨"1", "Blinding Lights", "The Weeknd", "After Hours", "3:20",
    "https://i.scdn.co/image/ab67616d0000b2738863bc11d2aa12b54f5aeb36", "Pop", "happy",
    some "0VjIjW4GlUZAMYd2vXMi3b", none⟩,
   ⟨"2", "Levitating", "Dua Lipa", "Future Nostalgia", "3:23",
    "https://i.scdn.co/image/ab67616d0000b273be841ba4bc24340152e3a79a", "Pop", "happy",
    some "39LLxExYz6ewLAcYrzQQyP", none⟩,
   ⟨"3", "Good 4 U", "Olivia Rodrigo", "SOUR", "2:58",
    "https://i.scdn.co/image/ab67616d0000b273a91c10fe9472d9bd89802e5a", "Pop Rock", "happy",
    some "4ZtFanR9U6ndgddUvNcjcG", none⟩,
   ⟨"4", "Uptown Funk", "Mark Ronson ft. Bruno Mars", "Uptown Special", "4:30",
    "https://i.scdn.co/image/ab67616d0000b273e419ccba0baa8bd3f3d7abf2", "Funk", "happy",
    some "32OlwWuMpZ6b0aN2RZOeMS", none⟩,
   ⟨"5", "Don't Stop Me Now", "Queen", "Jazz", "3:29",
    "https://i.scdn.co/image/ab67616d0000b273ce4f1737bc8a646c8c4bd25a", "Rock", "happy",
    some "7hQJA50XrCWABAu5v6QZ4i", none⟩]

/-- The `sadSongs` list of `realSongs.ts`. -/
def sadSongs : List Song :=
  [⟨"6", "Someone Like You", "Adele", "21", "4:45",
    "https://i.scdn.co/image/ab67616d0000b273372eb7ab49aed0e3d83f3f59", "Pop", "sad",
    some "1zwMYTA5nlNjZxYrvBB2pV", none⟩,
   ⟨"7", "The Night We Met", "Lord Huron", "Strange Trails", "3:28",
    "https://i.scdn.co/image/ab67616d0000b2737da94a1beda4172d8b4b4d28", "Indie Folk", "sad",
    some "0NdTUS4UiNYCNn5FgVqKQY", none⟩,
   ⟨"8", "Skinny Love", "Bon Iver", "For Emma, Forever Ago", "3:58",
    "https://i.scdn.co/image/ab67616d0000b273aa9e2dc3e5c91c4c2a0b1e1d", "Indie Folk", "sad",
    some "01oSZZKuf6a1KVhBYZbPqv", none⟩,
   ⟨"9", "Hurt", "Johnny Cash", "American IV: The Man Comes Around", "3:38",
    "https://i.scdn.co/image/ab67616d0000b273b8bbe5a3b7c6e5f7b3b3b3b3", "Country", "sad",
    some "1gK3FgCrJWzVW0pbmzJCj2", none⟩,
   ⟨"10", "Fix You", "Coldplay", "X&Y", "4:54",
    "https://i.scdn.co/image/ab67616d0000b273de09e0e9a1c9e0e9a1c9e0e9", "Alternative Rock", "sad",
    some "7LVHVU3tWfcxj5aiPFEW4Q", none⟩]

/-- The `calmSongs` list of `realSongs.ts`. -/
def calmSongs : List Song :=
  [⟨"11", "Weightless", "Marconi Union", "Weightless", "8:09",
    "https://i.scdn.co/image/ab67616d0000b273f9f9f9f9f9f9f9f9f9f9f9f9", "Ambient", "calm",
    some "2WfaOiMkCvy7F5fcp2zZ8L", none⟩,
   ⟨"12", "Clair de Lune", "Claude Debussy", "Suite Bergamasque", "5:24",
    "https://i.scdn.co/image/ab67616d0000b273e1e1e1e1e1e1e1e1e1e1e1e1", "Classical", "calm",
    some "1prBHLRgRca5HwKYhLKMPh", none⟩,
   ⟨"13", "Holocene", "Bon Iver", "Bon Iver", "5:36",
    "https://i.scdn.co/image/ab67616d0000b273b2b2b2b2b2b2b2b2b2b2b2b2", "Indie Folk", "calm",
    some "6g0Orsxv6glTJCt4cHsRsQ", none⟩,
   ⟨"14", "River Flows in You", "Yiruma", "First Love", "3:38",
    "https://i.scdn.co/image/ab67616d0000b273c3c3c3c3c3c3c3c3c3c3c3c3", "Classical", "calm",
    some "4Ajg9J8M7N1JNW2Nh8LHZB", none⟩,
   ⟨"15", "Breathe Me", "Sia", "Colour the Small One", "4:33",
    "https://i.scdn.co/image/ab67616d0000b273d4d4d4d4d4d4d4d4d4d4d4d4", "Pop", "calm",
    some "6pZNbGw5YxRt9cCsAWKHT0", none⟩]

/-- The `energeticSongs` list of `realSongs.ts`. -/
def energeticSongs : List Song :=
  [⟨"16", "Eye of the Tiger", "Survivor", "Eye of the Tiger", "4:04",
    "https://i.scdn.co/image/ab67616d0000b273e5e5e5e5e5e5e5e5e5e5e5e5", "Rock", "energetic",
    some "2KH16WveTQWT6KOG9Rg6e2", none⟩,
   ⟨"17", "Thunderstruck", "AC/DC", "The Razors Edge", "4:52",
    "https://i.scdn.co/image/ab67616d0000b273f6f6f6f6f6f6f6f6f6f6f6f6", "Rock", "energetic",
    some "57bgtoPSgt236HzfBOd8kj", none⟩,
   ⟨"18", "Till I Collapse", "Eminem ft. Nate Dogg", "The Eminem Show", "4:57",
    "https://i.scdn.co/image/ab67616d0000b273g7g7g7g7g7g7g7g7g7g7g7g7", "Hip Hop", "energetic",
    some "4xkOaSrkexMciUUogZKVTS", none⟩,
   ⟨"19", "Lose Yourself", "Eminem", "8 Mile Soundtrack", "5:26",
    "https://i.scdn.co/image/ab67616d0000b273h8h8h8h8h8h8h8h8h8h8h8h8", "Hip Hop", "energetic",
    some "5Z01UMMf7V1o0MzF86s6WJ", none⟩,
   ⟨"20", "Stronger", "Kanye West", "Graduation", "5:11",
    "https://i.scdn.co/image/ab67616d0000b273i9i9i9i9i9i9i9i9i9i9i9i9", "Hip Hop", "energetic",
    some "0j2T0R9dR9qdJYsB7ciXhf", none⟩]

/-- The `romanticSongs` list of `realSongs.ts` (the album string of "Perfect"
is copied byte for byte from the source file, mojibake included). -/
def romanticSongs : List Song :=
  [⟨"21", "Perfect", "Ed Sheeran", "รท (Divide)", "4:23",
    "https://i.scdn.co/image/ab67616d0000b273j0j0j0j0j0j0j0j0j0j0j0j0", "Pop", "romantic",
    some "0tgVpDi06FyKpA1z0VMD4v", none⟩,
   ⟨"22", "Thinking Out Loud", "Ed Sheeran", "x (Multiply)", "4:41",
    "https://i.scdn.co/image/ab67616d0000b273k1k1k1k1k1k1k1k1k1k1k1k1", "Pop", "romantic",
    some "3SdTKo2uVsxFblQjpScoHy", none⟩,
   ⟨"23", "All of Me", "John Legend", "Love in the Future", "4:29",
    "https://i.scdn.co/image/ab67616d0000b273l2l2l2l2l2l2l2l2l2l2l2l2", "R&B", "romantic",
    some "3U4isOIWM3VvDubwSI3y7a", none⟩,
   ⟨"24", "Make You Feel My Love", "Adele", "19", "3:32",
    "https://i.scdn.co/image/ab67616d0000b273m3m3m3m3m3m3m3m3m3m3m3m3", "Pop", "romantic",
    some "37P2CqjY8JU6WPq2VRsqbm", none⟩,
   ⟨"25", "A Thousand Years", "Christina Perri", "The Twilight Saga: Breaking Dawn", "4:45",
    "https://i.scdn.co/image/ab67616d0000b273n4n4n4n4n4n4n4n4n4n4n4n4", "Pop", "romantic",
    some "6Gg1gjkQVaRcFvt7jCKfKk", none⟩]

/-- The `trendingSongs` list of `realSongs.ts`. -/
def trendingSongs : List Song :=
  [⟨"26", "Anti-Hero", "Taylor Swift", "Midnights", "3:20",
    "https://i.scdn.co/image/ab67616d0000b273bb54dde68cd23e2a268ae0f5", "Pop", "happy",
    some "0V3wPSX9ygBnCm8psDIegu", none⟩,
   ⟨"27", "As It Was", "Harry Styles", "Harry's House", "2:47",
    "https://i.scdn.co/image/ab67616d0000b2732e8ed79e177ff6011076f5f0", "Pop", "happy",
    some "4Dvkj6JhhA12EX05fT7y2e", none⟩,
   ⟨"28", "Flowers", "Miley Cyrus", "Endless Summer Vacation", "3:20",
    "https://i.scdn.co/image/ab67616d0000b273f58f01c2f3b8c4c8c4c8c4c8", "Pop", "happy",
    some "0yLdNVWF3Srea0uzk55zFn", none⟩,
   ⟨"29", "Cruel Summer", "Taylor Swift", "Lover", "2:58",
    "https://i.scdn.co/image/ab67616d0000b273e787cffec20aa2a396a61647", "Pop", "happy",
    some "1BxfuPKGuaTgP7aM0Bbdwr", none⟩,
   ⟨"30", "Vampire", "Olivia Rodrigo", "GUTS", "3:39",
    "https://i.scdn.co/image/ab67616d0000b273e85259a1cae29a8d91f2093d", "Pop", "sad",
    some "1kuGVB7EU95pJObxwvfwKS", none⟩]

/-- The `allSongs` concatenation of `realSongs.ts`. -/
def allSongs : List Song :=
  happySongs ++ sadSongs ++ calmSongs ++ energeticSongs ++ romanticSongs ++ trendingSongs

/-- ASCII lowering of one character, as `String.prototype.toLowerCase` acts on
the mood labels the source uses (all ASCII). -/
def lowerChar (c : Char) : Char :=
  if 65 ≤ c.toNat ∧ c.toNat ≤ 90 then Char.ofNat (c.toNat + 32) else c

/-- `mood.toLowerCase()` on ASCII strings. -/
def lowerAscii (s : String) : String :=
  String.mk (s.data.map lowerChar)

/-- `getSongsByMood` from `realSongs.ts`: the `moodMap` object lookup on the
lower-cased mood, with `allSongs.slice(0, 10)` as the default. -/
def getSongsByMood (mood : String) : List Song :=
  let m := lowerAscii mood
  if m = "happy" then happySongs
  else if m = "sad" then sadSongs
  else if m = "calm" then calmSongs
  else if m = "energetic" then energeticSongs
  else if m = "excited" then energeticSongs
  else if m = "romantic" then romanticSongs
  else if m = "angry" then energeticSongs
  else allSongs.take 10

end RealSongs

namespace UseSpotify

/-- The `genreMap` lookup of `useSpotifyRecommendations` in `useSpotify.ts`,
with `'pop'` as the default genre. -/
def genreFor (mood : String) : String :=
  let m := RealSongs.lowerAscii mood
  if m = "happy" then "pop,dance,party"
  else if m = "sad" then "sad,acoustic,piano"
  else if m = "calm" then "ambient,chill,study"
  else if m = "energetic" then "rock,workout,power"
  else if m = "excited" then "edm,electronic,party"
  else if m = "romantic" then "romance,love,acoustic"
  else if m = "angry" then "metal,rock,punk"
  else "pop"

/-- What `fetchRecommendations` leaves in the `songs` state: either the
normalized remote tracks or the static-catalog fallback. -/
inductive RecsResult where
  | fromRemote (tracks : List SpotifyService.FormattedTrack) : RecsResult
  | fromStatic (songs : List RealSongs.Song) : RecsResult
deriving DecidableEq

/-- The `try`/`catch` body of `fetchRecommendations` in
`useSpotifyRecommendations` (`useSpotify.ts`).  The awaited
`searchTracks(genre query, 10)` call is passed in by its outcome: a normal
return gives `tracks.map(formatTrack)`, a thrown exception is caught and gives
`getSongsByMood(mood)`. -/
def fetchRecommendations (searchOutcome : Except Unit (List SpotifyService.RemoteTrack))
    (mood : String) : RecsResult :=
  match searchOutcome with
  | Except.ok tracks => RecsResult.fromRemote (tracks.map SpotifyService.formatTrack)
  | Except.error _ => RecsResult.fromStatic (RealSongs.getSongsByMood mood)

end UseSpotify

namespace JsStr

/-- `String.prototype.trim()`: whitespace stripped from both ends.  (The core
`String.trim` is not kernel-reducible, so the same operation is written on the
character list.) -/
def jsTrim (s : String) : String :=
  String.mk (((s.data.dropWhile Char.isWhitespace).reverse.dropWhile Char.isWhitespace).reverse)

/-- Helper of `splitColon`: accumulate the current field until a colon. -/
def splitColonAux : List Char → List Char → List (List Char)
  | [], acc => [acc.reverse]
  | c :: rest, acc =>
      if c = ':' then acc.reverse :: splitColonAux rest []
      else splitColonAux rest (c :: acc)

/-- `s.split(':')` on the character list. -/
def splitColon (s : String) : List String :=
  (splitColonAux s.data []).map String.mk

/-- Digit characters to the number they spell. -/
def digitsToNat (l : List Char) : Nat :=
  l.foldl (fun n c => n * 10 + (c.toNat - 48)) 0

/-- `Number(s)` on the all-digit strings the comment labels contain: `none`
models `NaN` (empty or non-digit input). -/
def jsParseNat (s : String) : Option Nat :=
  if s.data ≠ [] ∧ s.data.all Char.isDigit then some (digitsToNat s.data) else none

/-- Lexicographic comparison of character lists by character code, the order
`localeCompare` induces on the timestamp labels (digits and a colon). -/
def charListLe : List Char → List Char → Bool
  | [], _ => true
  | _ :: _, [] => false
  | a :: as, b :: bs =>
      if a.toNat = b.toNat then charListLe as bs
      else decide (a.toNat < b.toNat)

/-- Totality of `charListLe`. -/
theorem charListLe_total : ∀ xs ys : List Char,
    charListLe xs ys = true ∨ charListLe ys xs = true := by
  intro xs
  induction xs with
  | nil => intro ys; left; rfl
  | cons a as ih =>
    intro ys
    cases ys with
    | nil => right; rfl
    | cons b bs =>
      by_cases h : a.toNat = b.toNat
      · have h' : b.toNat = a.toNat := h.symm
        rcases ih bs with hl | hr
        · left; simpa [charListLe, h] using hl
        · right; simpa [charListLe, h'] using hr
      · rcases Nat.lt_or_ge a.toNat b.toNat with hlt | hge
        · left; simp [charListLe, h, hlt]
        · have hgt : b.toNat < a.toNat := Nat.lt_of_le_of_ne hge (fun e => h e.symm)
          have hne : ¬ b.toNat = a.toNat := fun e => h e.symm
          right; simp [charListLe, hne, hgt]

/-- Transitivity of `charListLe`. -/
theorem charListLe_trans : ∀ xs ys zs : List Char,
    charListLe xs ys = true → charListLe ys zs = true → charListLe xs zs = true := by
  intro xs
  induction xs with
  | nil => intro ys zs _ _; rfl
  | cons a as ih =>
    intro ys zs h1 h2
    cases ys with
    | nil => simp [charListLe] at h1
    | cons b bs =>
      cases zs with
      | nil => simp [charListLe] at h2
      | cons c cs =>
        by_cases hab : a.toNat = b.toNat
        · by_cases hbc : b.toNat = c.toNat
          · have hac : a.toNat = c.toNat := hab.trans hbc
            simp only [charListLe, if_pos hab] at h1
            simp only [charListLe, if_pos hbc] at h2
            simpa [charListLe, hac] using ih bs cs h1 h2
          · simp only [charListLe, if_neg hbc, decide_eq_true_eq] at h2
            have hac : a.toNat < c.toNat := hab ▸ h2
            have hne : ¬ a.toNat = c.toNat := Nat.ne_of_lt hac
            simp [charListLe, hne, hac]
        · simp only [charListLe, if_neg hab, decide_eq_true_eq] at h1
          by_cases hbc : b.toNat = c.toNat
          · have hac : a.toNat < c.toNat := hbc ▸ h1
            have hne : ¬ a.toNat = c.toNat := Nat.ne_of_lt hac
            simp [charListLe, hne, hac]
          · simp only [charListLe, if_neg hbc, decide_eq_true_eq] at h2
            have hac : a.toNat < c.toNat := Nat.lt_trans h1 h2
            have hne : ¬ a.toNat = c.toNat := Nat.ne_of_lt hac
            simp [charListLe, hne, hac]

/-- The label order on strings. -/
def labelLe (a b : String) : Bool := charListLe a.data b.data

end JsStr

namespace SocialPage

/-- A comment of the `Social.tsx` page state (field names follow the object
literals of the source; `likes` is an `Int` because JS subtraction can take it
below zero). -/
structure Comment where
  id : Nat
  timestamp : String
  text : String
  author : String
  likes : Int
  time : String
  isLiked : Bool
deriving DecidableEq

/-- `formatTime` from `Social.tsx`: seconds to an `M:SS` label. -/
def formatTime (seconds : Nat) : String :=
  toString (seconds / 60) ++ ":" ++ SpotifyService.padStartTwo (toString (seconds % 60))

/-- The slice of `Social.tsx` component state that `addComment` reads and
writes. -/
structure PageState where
  comments : List Comment
  newComment : String
  showCommentBox : Bool
deriving DecidableEq

/-- `addComment` from `Social.tsx`.  The guard is `if (newComment.trim())`:
with whitespace-only input nothing at all happens (the state is returned
untouched); otherwise one comment is built from the current playback time and
pushed at the head of the list, and the input box is cleared and closed. -/
def addComment (currentTime : Nat) (st : PageState) : PageState :=
  if JsStr.jsTrim st.newComment = "" then st
  else
    { comments :=
        { id := st.comments.length + 1
          timestamp := formatTime currentTime
          text := st.newComment
          author := "You"
          likes := 0
          time := "Just now"
          isLiked := false } :: st.comments
      newComment := ""
      showCommentBox := false }

/-- The per-element update of `toggleLike` in `Social.tsx`. -/
def toggleOne (commentId : Nat) (c : Comment) : Comment :=
  if c.id = commentId then
    { c with
      isLiked := !c.isLiked
      likes := if c.isLiked then c.likes - 1 else c.likes + 1 }
  else c

/-- `toggleLike` from `Social.tsx`: a map of `toggleOne` over the list. -/
def toggleLike (commentId : Nat) (comments : List Comment) : List Comment :=
  comments.map (toggleOne commentId)

/-- The `comment.timestamp.split(':')` arithmetic of `getActiveComments`:
an `MM:SS` label to integer seconds. -/
def commentTimeSeconds (ts : String) : Int :=
  match JsStr.splitColon ts with
  | [m, s] => (((JsStr.jsParseNat m).getD 0 : Int)) * 60 + (((JsStr.jsParseNat s).getD 0 : Int))
  | _ => 0

/-- `getActiveComments` from `Social.tsx`: the comments whose offset is within
5 seconds of the playback position. -/
def getActiveComments (comments : List Comment) (currentTime : Int) : List Comment :=
  comments.filter (fun c => (commentTimeSeconds c.timestamp - currentTime).natAbs ≤ 5)

end SocialPage

namespace RecommendationsPage

/-- The time-of-day classification inside `updateTime` of
`Recommendations.tsx`. -/
def timeOfDay (hour : Nat) : String :=
  if 5 ≤ hour ∧ hour < 12 then "Morning"
  else if 12 ≤ hour ∧ hour < 17 then "Afternoon"
  else if 17 ≤ hour ∧ hour < 21 then "Evening"
  else "Night"

end RecommendationsPage

namespace TimestampComments

/-- The `CommentType` records of the `TimestampComments` component.
`createdAt` is the `Date.now()` value used both for the id and the creation
time. -/
structure CommentType where
  id : String
  songId : String
  userId : String
  timestamp : String
  text : String
  createdAt : Nat
  likes : Nat
deriving DecidableEq

/-- The `Record<string, CommentType[]>` comment store; a key never written
maps to `[]`, mirroring the `comments[songId] || []` reads. -/
def Store : Type := String → List CommentType

/-- A store with no comments. -/
def emptyStore : Store := fun _ => []

/-- `addComment` from the `TimestampComments` component: a blank (whitespace
only) text is rejected with an early return, otherwise the new comment is
inserted at the head of the song's list. -/
def addComment (store : Store) (songId currentTimestamp text : String) (now : Nat) : Store :=
  if JsStr.jsTrim text = "" then store
  else fun k =>
    if k = songId then
      { id := "c" ++ toString now
        songId := songId
        userId := "u_current"
        timestamp := currentTimestamp
        text := JsStr.jsTrim text
        createdAt := now
        likes := 0 } :: store k
    else store k

/-- The comparison `a.timestamp.localeCompare(b.timestamp) ≤ 0` used by the
component's sorted listing, modeled as the lexicographic character-code order
on the `MM:SS` labels (on the label alphabet of digits and a colon,
`localeCompare` and code order agree at every digit position). -/
def tsLe (a b : CommentType) : Prop :=
  JsStr.labelLe a.timestamp b.timestamp = true

instance : DecidableRel tsLe :=
  fun a b => inferInstanceAs (Decidable (JsStr.labelLe a.timestamp b.timestamp = true))

instance : IsTotal CommentType tsLe :=
  ⟨fun a b => JsStr.charListLe_total a.timestamp.data b.timestamp.data⟩

instance : IsTrans CommentType tsLe :=
  ⟨fun _ _ _ hab hbc => JsStr.charListLe_trans _ _ _ hab hbc⟩

/-- The `items` memo of the component:
`(comments[songId] || []).slice().sort((a, b) => a.timestamp.localeCompare(b.timestamp))`,
modeled as a stable insertion sort by `tsLe`. -/
def items (store : Store) (songId : String) : List CommentType :=
  List.insertionSort tsLe (store songId)

end TimestampComments

open SpotifyService RealSongs UseSpotify

/-- Claim C4, amended.  `getSpotifyToken` propagates a failure exactly when no
valid cached credential exists and the token request (or its body parse)
throws; the HTTP status of a parsed payload is never inspected and a payload
missing its fields still yields a normal return: the token is
`access_token || ''` (so possibly the empty string), not an `AuthError`.  A
valid cached credential is returned with no network call. -/
theorem claim_C4 (f : TokenFetchOutcome) (now : Int) (s : TokenState) :
    ((getSpotifyToken f now s).result = Except.error ()
      ↔ cacheValid s now = false ∧ f = TokenFetchOutcome.unreachable)
    ∧ (∀ status tok exp, cacheValid s now = false →
        f = TokenFetchOutcome.payload status tok exp →
        (getSpotifyToken f now s).result = Except.ok (tok.getD ""))
    ∧ (cacheValid s now = true →
        (getSpotifyToken f now s).result = Except.ok s.accessToken
        ∧ (getSpotifyToken f now s).tokenCalls = 0) := by
  refine ⟨?_, ?_, ?_⟩
  · cases hv : cacheValid s now <;> cases f <;> simp [getSpotifyToken, hv]
  · intro status tok exp hv hf
    subst hf
    simp [getSpotifyToken, hv]
  · intro hv
    simp [getSpotifyToken, hv]

/-- Witness for claim C4 at concrete inputs: with an empty cache, a payload
with non-success status 500 still returns the token it carries, and a payload
missing both fields returns the empty string. -/
theorem claim_C4_witness :
    (getSpotifyToken (TokenFetchOutcome.payload 500 (some "t") (some 3600)) 0
        initialTokenState).result = Except.ok "t"
    ∧ (getSpotifyToken (TokenFetchOutcome.payload 200 none none) 0
        initialTokenState).result = Except.ok "" :=
  ⟨(claim_C4 (TokenFetchOutcome.payload 500 (some "t") (some 3600)) 0
      initialTokenState).2.1 500 (some "t") (some 3600) (by decide) rfl,
   (claim_C4 (TokenFetchOutcome.payload 200 none none) 0
      initialTokenState).2.1 200 none none (by decide) rfl⟩

/-- Counterexample to claim C4 as stated: the token endpoint answers with the
non-success status 500 (and, in the second part, with a payload missing the
access token and lifetime), yet `getSpotifyToken` does not fail — it returns a
token string normally. -/
theorem claim_C4_cex :
    (getSpotifyToken (TokenFetchOutcome.payload 500 (some "t") (some 3600)) 0
        initialTokenState).result = Except.ok "t"
    ∧ (getSpotifyToken (TokenFetchOutcome.payload 200 none none) 0
        initialTokenState).result = Except.ok ""
    ∧ (Except.ok "t" : Except Unit String) ≠ Except.error ()
    ∧ (Except.ok "" : Except Unit String) ≠ Except.error () := by
  refine ⟨rfl, rfl, ?_, ?_⟩ <;> intro h <;> exact Except.noConfusion h

/-- Claim C5, as stated.  While a cached credential exists and is within the
renewal margin at both call instants, two consecutive `getSpotifyToken` calls
both return the identical cached token string, both perform zero network
calls, and the cache state is unchanged. -/
theorem claim_C5 (f1 f2 : TokenFetchOutcome) (now1 now2 : Int) (s : TokenState)
    (h1 : cacheValid s now1 = true) (h2 : cacheValid s now2 = true) :
    (getSpotifyToken f1 now1 s).result = Except.ok s.accessToken
    ∧ (getSpotifyToken f1 now1 s).tokenCalls = 0
    ∧ (getSpotifyToken f2 now2 (getSpotifyToken f1 now1 s).state).result
        = Except.ok s.accessToken
    ∧ (getSpotifyToken f2 now2 (getSpotifyToken f1 now1 s).state).tokenCalls = 0
    ∧ (getSpotifyToken f2 now2 (getSpotifyToken f1 now1 s).state).state = s := by
  simp [getSpotifyToken, h1, h2]

/-- Witness for claim C5: a cached token "tok" valid until expiry 100, read at
instants 0 and 50. -/
theorem claim_C5_witness :
    (getSpotifyToken TokenFetchOutcome.unreachable 0
        { accessToken := "tok", tokenExpiry := some 100 }).result = Except.ok "tok"
    ∧ (getSpotifyToken TokenFetchOutcome.unreachable 0
        { accessToken := "tok", tokenExpiry := some 100 }).tokenCalls = 0
    ∧ (getSpotifyToken TokenFetchOutcome.unreachable 50
        (getSpotifyToken TokenFetchOutcome.unreachable 0
          { accessToken := "tok", tokenExpiry := some 100 }).state).result
        = Except.ok "tok"
    ∧ (getSpotifyToken TokenFetchOutcome.unreachable 50
        (getSpotifyToken TokenFetchOutcome.unreachable 0
          { accessToken := "tok", tokenExpiry := some 100 }).state).tokenCalls = 0
    ∧ (getSpotifyToken TokenFetchOutcome.unreachable 50
        (getSpotifyToken TokenFetchOutcome.unreachable 0
          { accessToken := "tok", tokenExpiry := some 100 }).state).state
        = { accessToken := "tok", tokenExpiry := some 100 } :=
  claim_C5 TokenFetchOutcome.unreachable TokenFetchOutcome.unreachable 0 50
    { accessToken := "tok", tokenExpiry := some 100 } (by decide) (by decide)

/-- Claim C3, amended.  `searchTracks` obtains a token first (if that throws,
the search endpoint is not contacted at all); it then makes at most one search
request, never inspects the response status, performs no forced token refresh
and no retry, and on every failure (token failure, network failure, or a body
without `tracks.items` — which is what a 401/403 error body is) it returns the
empty list as a normal result instead of failing with a `CatalogError`. -/
theorem claim_C3 (ft : TokenFetchOutcome) (fs : SearchFetchOutcome) (now : Int)
    (s : TokenState) :
    (searchTracks ft fs now s).searchCalls ≤ 1
    ∧ (searchTracks ft fs now s).tokenCalls = (getSpotifyToken ft now s).tokenCalls
    ∧ ((getSpotifyToken ft now s).result = Except.error () →
        (searchTracks ft fs now s).tracks = []
        ∧ (searchTracks ft fs now s).searchCalls = 0)
    ∧ (∀ status, fs = SearchFetchOutcome.payload status none →
        (searchTracks ft fs now s).tracks = [])
    ∧ (fs = SearchFetchOutcome.unreachable → (searchTracks ft fs now s).tracks = []) := by
  rcases hg : getSpotifyToken ft now s with ⟨res, s1, n⟩
  cases res with
  | error e => cases fs <;> simp [searchTracks, hg]
  | ok tok =>
    cases fs with
    | unreachable => simp [searchTracks, hg]
    | payload status items => cases items <;> simp [searchTracks, hg]

/-- Witness for claim C3 at concrete inputs: a failing token fetch gives the
empty list with no search call, and a 401-style error body gives the empty
list. -/
theorem claim_C3_witness :
    ((searchTracks TokenFetchOutcome.unreachable SearchFetchOutcome.unreachable 0
        initialTokenState).tracks = []
      ∧ (searchTracks TokenFetchOutcome.unreachable SearchFetchOutcome.unreachable 0
          initialTokenState).searchCalls = 0)
    ∧ (searchTracks TokenFetchOutcome.unreachable (SearchFetchOutcome.payload 401 none) 0
        { accessToken := "tok", tokenExpiry := some 100 }).tracks = [] :=
  ⟨(claim_C3 TokenFetchOutcome.unreachable SearchFetchOutcome.unreachable 0
      initialTokenState).2.2.1 rfl,
   (claim_C3 TokenFetchOutcome.unreachable (SearchFetchOutcome.payload 401 none) 0
      { accessToken := "tok", tokenExpiry := some 100 }).2.2.2.1 401 rfl⟩

/-- Counterexample to claim C3 as stated: with a valid cached token, a
401-class response (whose error body has no `tracks.items`) produces zero
token-endpoint calls (so no forced refresh), exactly one search call (so no
retry), and the normal value `[]` rather than a `CatalogError`. -/
theorem claim_C3_cex :
    searchTracks TokenFetchOutcome.unreachable (SearchFetchOutcome.payload 401 none) 0
        { accessToken := "tok", tokenExpiry := some 100 }
      = { tracks := [], state := { accessToken := "tok", tokenExpiry := some 100 },
          tokenCalls := 0, searchCalls := 1 } := rfl

/-- Claim C6, amended.  `formatTrack` is a pure function whose artist field is
the comma-joined artist names in remote order and whose duration is the
floor-division `M:SS` rendering (`125000` ms gives "2:05", `61000` ms gives
"1:01"); the artwork is the first image URI when that URI is a non-empty
string, and the placeholder sentinel when the image list is empty or its first
URI is the empty string (the JS `||`). -/
theorem claim_C6 (t : RemoteTrack) :
    (formatTrack t).artist = String.intercalate ", " (t.artists.map RemoteArtist.name)
    ∧ (formatTrack t).duration
        = toString (t.duration_ms / 60000) ++ ":"
            ++ padStartTwo (toString (t.duration_ms / 1000 % 60))
    ∧ (t.album.images = [] → (formatTrack t).albumArt = "/placeholder.svg")
    ∧ (∀ i rest, t.album.images = i :: rest → i.url ≠ "" →
        (formatTrack t).albumArt = i.url)
    ∧ (∀ i rest, t.album.images = i :: rest → i.url = "" →
        (formatTrack t).albumArt = "/placeholder.svg")
    ∧ formatDuration 125000 = "2:05" ∧ formatDuration 61000 = "1:01" := by
  refine ⟨rfl, ?_, ?_, ?_, ?_, by decide, by decide⟩
  · have harith : t.duration_ms % 60000 / 1000 = t.duration_ms / 1000 % 60 := by
      omega
    simp [formatTrack, formatDuration, harith]
  · intro h
    simp [formatTrack, h]
  · intro i rest h hne
    simp [formatTrack, h, hne]
  · intro i rest h he
    simp [formatTrack, h, he]

/-- Witness for claim C6 at concrete records: an empty image list yields the
placeholder, a non-empty first URI is passed through. -/
theorem claim_C6_witness :
    (formatTrack ⟨"x", "t", [], ⟨"a", []⟩, 0, none, ⟨"u"⟩, 0⟩).albumArt = "/placeholder.svg"
    ∧ (formatTrack ⟨"x", "t", [], ⟨"a", [⟨"art"⟩]⟩, 0, none, ⟨"u"⟩, 0⟩).albumArt = "art" :=
  ⟨(claim_C6 _).2.2.1 rfl,
   (claim_C6 _).2.2.2.1 ⟨"art"⟩ [] rfl (by decide)⟩

/-- Counterexample to claim C6 as stated: a remote record whose image list is
non-empty but whose first URI is the empty string renders the placeholder
sentinel, not the first image URI. -/
theorem claim_C6_cex :
    (formatTrack ⟨"x", "t", [], ⟨"a", [⟨""⟩]⟩, 0, none, ⟨"u"⟩, 0⟩).albumArt = "/placeholder.svg"
    ∧ (⟨"x", "t", [], ⟨"a", [⟨""⟩]⟩, 0, none, ⟨"u"⟩, 0⟩ : RemoteTrack).album.images.map
        RemoteImage.url = [""]
    ∧ "/placeholder.svg" ≠ "" := by
  exact ⟨rfl, rfl, by decide⟩

/-- Claim C1, amended.  With a `searchTracks` stub that always fails (throws),
the recommendation hook falls back to the static catalog via
`getSongsByMood`: for the Emotion "calm" it returns exactly the 5 calm-mood
tracks of `StaticCatalog` (each carrying mood tag "calm" and drawn from
`allSongs`); each of the seven recognized moods likewise yields its 5-track
partition (the requested count is not consulted); but for an Emotion outside
the mood map, such as "neutral", the fallback is the first 10 tracks of the
full catalog, not 5. -/
theorem claim_C1 :
    fetchRecommendations (Except.error ()) "calm" = RecsResult.fromStatic calmSongs
    ∧ calmSongs.length = 5
    ∧ (calmSongs.all fun s => s.mood == "calm" && allSongs.contains s)
    ∧ (["happy", "sad", "calm", "energetic", "excited", "romantic", "angry"].all
        fun m => (getSongsByMood m).length == 5)
    ∧ fetchRecommendations (Except.error ()) "neutral" = RecsResult.fromStatic (allSongs.take 10)
    ∧ (allSongs.take 10).length = 10 := by
  decide

/-- Counterexample to claim C1 as stated: for a context whose Emotion is
"neutral" (a member of the closed Emotion set) and an always-failing catalog
client, the fallback returns the first 10 tracks of the full static catalog —
not exactly 5 tracks. -/
theorem claim_C1_cex :
    fetchRecommendations (Except.error ()) "neutral" = RecsResult.fromStatic (allSongs.take 10)
    ∧ ¬ (allSongs.take 10).length = 5 := by
  decide

/-- Claim C9, as stated.  The time-of-day bucket is a pure function of the
wall-clock hour taking one of exactly four values, with Morning on [5,12),
Afternoon on [12,17), Evening on [17,21) and Night otherwise, the boundaries
falling exactly at hours 5, 12, 17 and 21. -/
theorem claim_C9 :
    (∀ h : Fin 24,
      (RecommendationsPage.timeOfDay h.val = "Morning"
        ∨ RecommendationsPage.timeOfDay h.val = "Afternoon"
        ∨ RecommendationsPage.timeOfDay h.val = "Evening"
        ∨ RecommendationsPage.timeOfDay h.val = "Night")
      ∧ (RecommendationsPage.timeOfDay h.val = "Morning" ↔ 5 ≤ h.val ∧ h.val < 12)
      ∧ (RecommendationsPage.timeOfDay h.val = "Afternoon" ↔ 12 ≤ h.val ∧ h.val < 17)
      ∧ (RecommendationsPage.timeOfDay h.val = "Evening" ↔ 17 ≤ h.val ∧ h.val < 21)
      ∧ (RecommendationsPage.timeOfDay h.val = "Night" ↔ (h.val < 5 ∨ 21 ≤ h.val)))
    ∧ RecommendationsPage.timeOfDay 4 = "Night"
    ∧ RecommendationsPage.timeOfDay 5 = "Morning"
    ∧ RecommendationsPage.timeOfDay 11 = "Morning"
    ∧ RecommendationsPage.timeOfDay 12 = "Afternoon"
    ∧ RecommendationsPage.timeOfDay 16 = "Afternoon"
    ∧ RecommendationsPage.timeOfDay 17 = "Evening"
    ∧ RecommendationsPage.timeOfDay 20 = "Evening"
    ∧ RecommendationsPage.timeOfDay 21 = "Night" := by
  decide

/-- Claim C7, as stated.  `getActiveComments` returns exactly the comments
whose `MM:SS` offset, converted to seconds, lies within 5 seconds of the
playback position; in particular a comment at "1:23" (83 s) is active at
position 80 and not at position 70. -/
theorem claim_C7 :
    (∀ (cs : List SocialPage.Comment) (p : Int) (c : SocialPage.Comment),
      c ∈ SocialPage.getActiveComments cs p
        ↔ c ∈ cs ∧ (SocialPage.commentTimeSeconds c.timestamp - p).natAbs ≤ 5)
    ∧ SocialPage.commentTimeSeconds "1:23" = 83
    ∧ (∀ c : SocialPage.Comment, c.timestamp = "1:23" →
        SocialPage.getActiveComments [c] 80 = [c]
        ∧ SocialPage.getActiveComments [c] 70 = []) := by
  refine ⟨?_, by decide, ?_⟩
  · intro cs p c
    simp [SocialPage.getActiveComments, List.mem_filter]
  · intro c h
    have h80 : (SocialPage.commentTimeSeconds c.timestamp - 80).natAbs ≤ 5 := by
      rw [h]; decide
    have h70 : ¬ (SocialPage.commentTimeSeconds c.timestamp - 70).natAbs ≤ 5 := by
      rw [h]; decide
    constructor
    · simp [SocialPage.getActiveComments, List.filter_cons, h80]
    · simp [SocialPage.getActiveComments, List.filter_cons, h70]

/-- Witness for claim C7 at a concrete comment anchored at "1:23". -/
theorem claim_C7_witness :
    SocialPage.getActiveComments [⟨1, "1:23", "t", "a", 0, "now", false⟩] 80
        = [⟨1, "1:23", "t", "a", 0, "now", false⟩]
    ∧ SocialPage.getActiveComments [⟨1, "1:23", "t", "a", 0, "now", false⟩] 70 = [] :=
  claim_C7.2.2 ⟨1, "1:23", "t", "a", 0, "now", false⟩ rfl

/-- Claim C8, as stated (rejection is the silent early return of the source:
no comment is stored and the page state is completely unchanged).  An input
that is empty after trimming whitespace stores nothing; an input with
non-whitespace content stores exactly one new comment at the head of the
list. -/
theorem claim_C8 (ct : Nat) (st : SocialPage.PageState) :
    (JsStr.jsTrim st.newComment = "" → SocialPage.addComment ct st = st)
    ∧ (JsStr.jsTrim st.newComment ≠ "" →
        (SocialPage.addComment ct st).comments
          = ⟨st.comments.length + 1, SocialPage.formatTime ct, st.newComment,
              "You", 0, "Just now", false⟩ :: st.comments) := by
  constructor
  · intro h
    simp [SocialPage.addComment, h]
  · intro h
    simp [SocialPage.addComment, h]

/-- Witness for claim C8: the input "   " stores nothing and leaves the state
unchanged, while "hello" at playback position 120 stores one comment stamped
"2:00". -/
theorem claim_C8_witness :
    SocialPage.addComment 120 ⟨[], "   ", true⟩ = ⟨[], "   ", true⟩
    ∧ (SocialPage.addComment 120 ⟨[], "hello", true⟩).comments
        = [⟨1, "2:00", "hello", "You", 0, "Just now", false⟩] := by
  refine ⟨(claim_C8 120 ⟨[], "   ", true⟩).1 (by decide), ?_⟩
  have h := (claim_C8 120 ⟨[], "hello", true⟩).2 (by decide)
  have ht : SocialPage.formatTime 120 = "2:00" := by decide
  simpa [ht] using h

/-- Claim C10, as stated.  Toggling a like twice restores the comment list
exactly; a single toggle keeps the length, rewrites every position by the
per-comment update, leaves every comment with a different id unchanged, and on
the comment with the toggled id negates the liked flag, moves the like count
by exactly one, and changes no other field. -/
theorem claim_C10 (commentId : Nat) (cs : List SocialPage.Comment) :
    SocialPage.toggleLike commentId (SocialPage.toggleLike commentId cs) = cs
    ∧ (SocialPage.toggleLike commentId cs).length = cs.length
    ∧ (∀ i : Nat, (SocialPage.toggleLike commentId cs)[i]?
        = (cs[i]?).map (SocialPage.toggleOne commentId))
    ∧ (∀ c : SocialPage.Comment, c.id ≠ commentId → SocialPage.toggleOne commentId c = c)
    ∧ (∀ c : SocialPage.Comment, c.id = commentId →
        (SocialPage.toggleOne commentId c).isLiked = !c.isLiked
        ∧ ((SocialPage.toggleOne commentId c).likes - c.likes = 1
            ∨ (SocialPage.toggleOne commentId c).likes - c.likes = -1)
        ∧ (SocialPage.toggleOne commentId c).id = c.id
        ∧ (SocialPage.toggleOne commentId c).timestamp = c.timestamp
        ∧ (SocialPage.toggleOne commentId c).text = c.text
        ∧ (SocialPage.toggleOne commentId c).author = c.author
        ∧ (SocialPage.toggleOne commentId c).time = c.time) := by
  have one : ∀ c : SocialPage.Comment,
      SocialPage.toggleOne commentId (SocialPage.toggleOne commentId c) = c := by
    intro c
    cases c with
    | mk id ts tx au lk tm il =>
      by_cases h : id = commentId
      · cases il <;> simp [SocialPage.toggleOne, h]
      · simp [SocialPage.toggleOne, h]
  refine ⟨?_, List.length_map _ _, ?_, ?_, ?_⟩
  · rw [SocialPage.toggleLike, SocialPage.toggleLike, List.map_map]
    have hcomp : SocialPage.toggleOne commentId ∘ SocialPage.toggleOne commentId = id :=
      funext one
    rw [hcomp, List.map_id]
  · intro i
    simp [SocialPage.toggleLike]
  · intro c h
    simp [SocialPage.toggleOne, h]
  · intro c h
    cases c with
    | mk id ts tx au lk tm il =>
      cases il <;> simp_all [SocialPage.toggleOne]

/-- Witness for claim C10 on a concrete two-comment list, toggling id 2: the
double toggle restores the list, the non-matching comment is untouched, and
the matching comment's count moves by one. -/
theorem claim_C10_witness :
    SocialPage.toggleLike 2 (SocialPage.toggleLike 2
        [⟨1, "0:45", "x", "A", 12, "2h", false⟩, ⟨2, "1:23", "y", "B", 8, "1h", true⟩])
      = [⟨1, "0:45", "x", "A", 12, "2h", false⟩, ⟨2, "1:23", "y", "B", 8, "1h", true⟩]
    ∧ SocialPage.toggleOne 2 ⟨1, "0:45", "x", "A", 12, "2h", false⟩
        = ⟨1, "0:45", "x", "A", 12, "2h", false⟩
    ∧ ((SocialPage.toggleOne 2 ⟨2, "1:23", "y", "B", 8, "1h", true⟩).likes - 8 = 1
        ∨ (SocialPage.toggleOne 2 ⟨2, "1:23", "y", "B", 8, "1h", true⟩).likes - 8 = -1) :=
  ⟨(claim_C10 2 [⟨1, "0:45", "x", "A", 12, "2h", false⟩,
      ⟨2, "1:23", "y", "B", 8, "1h", true⟩]).1,
   (claim_C10 2 []).2.2.2.1 ⟨1, "0:45", "x", "A", 12, "2h", false⟩ (by decide),
   (claim_C10 2 []).2.2.2.2 ⟨2, "1:23", "y", "B", 8, "1h", true⟩ rfl |>.2.1⟩

/-- Claim C2, amended.  Every new comment is inserted at the head of its
track's sequence, so the insertion-mode listing is most-recent-first; the
timestamp-mode listing is a permutation of the track's comments sorted
ascending by lexicographic comparison of their `MM:SS` labels (the order
`localeCompare` gives), which agrees with ascending timestamp offset on
equal-width minute fields — on the example sequence 1:10, 0:30, 2:00 the two
modes return 0:30, 1:10, 2:00 and (most-recent-first) 2:00, 0:30, 1:10
respectively — but not for labels of different minute width. -/
theorem claim_C2 (store : TimestampComments.Store) (songId ts text : String) (now : Nat)
    (h : JsStr.jsTrim text ≠ "") :
    (TimestampComments.addComment store songId ts text now) songId
      = ⟨"c" ++ toString now, songId, "u_current", ts, JsStr.jsTrim text, now, 0⟩
          :: store songId
    ∧ List.Sorted TimestampComments.tsLe (TimestampComments.items store songId)
    ∧ (TimestampComments.items store songId).Perm (store songId)
    ∧ ((TimestampComments.items
          (TimestampComments.addComment
            (TimestampComments.addComment
              (TimestampComments.addComment TimestampComments.emptyStore "s" "1:10" "a" 1)
              "s" "0:30" "b" 2)
            "s" "2:00" "c" 3) "s").map (fun c => c.timestamp)
        = ["0:30", "1:10", "2:00"])
    ∧ ((TimestampComments.addComment
          (TimestampComments.addComment
            (TimestampComments.addComment TimestampComments.emptyStore "s" "1:10" "a" 1)
            "s" "0:30" "b" 2)
          "s" "2:00" "c" 3) "s").map (fun c => c.timestamp)
        = ["2:00", "0:30", "1:10"] := by
  refine ⟨?_, ?_, ?_, by decide, by decide⟩
  · simp [TimestampComments.addComment, h]
  · exact List.sorted_insertionSort TimestampComments.tsLe (store songId)
  · exact List.perm_insertionSort TimestampComments.tsLe (store songId)

/-- Witness for claim C2: one concrete add, showing the head insertion with
the trimmed text and generated id. -/
theorem claim_C2_witness :
    (TimestampComments.addComment TimestampComments.emptyStore "s" "1:10" "hi " 7) "s"
      = [⟨"c7", "s", "u_current", "1:10", "hi", 7, 0⟩] := by
  have h := (claim_C2 TimestampComments.emptyStore "s" "1:10" "hi " 7 (by decide)).1
  have hid : ("c" ++ toString 7 : String) = "c7" := by decide
  have htr : JsStr.jsTrim "hi " = "hi" := by decide
  simpa [hid, htr, TimestampComments.emptyStore] using h

/-- Counterexample to claim C2 as stated: after comments at "10:00" (600 s)
and "2:00" (120 s), the timestamp-mode listing sorts the labels as strings and
returns 10:00 before 2:00 — offsets 600, 120 — which is not ascending by
timestamp offset. -/
theorem claim_C2_cex :
    ((TimestampComments.items
        (TimestampComments.addComment
          (TimestampComments.addComment TimestampComments.emptyStore "s" "10:00" "a" 1)
          "s" "2:00" "b" 2) "s").map
        (fun c => SocialPage.commentTimeSeconds c.timestamp) = [600, 120])
    ∧ ¬ List.Sorted (fun a b : Int => a ≤ b)
        ((TimestampComments.items
          (TimestampComments.addComment
            (TimestampComments.addComment TimestampComments.emptyStore "s" "10:00" "a" 1)
            "s" "2:00" "b" 2) "s").map
          (fun c => SocialPage.commentTimeSeconds c.timestamp)) := by
  constructor
  · decide
  · intro hs
    have h600 : (600 : Int) ≤ 120 := by
      have hmap : (TimestampComments.items
          (TimestampComments.addComment
            (TimestampComments.addComment TimestampComments.emptyStore "s" "10:00" "a" 1)
            "s" "2:00" "b" 2) "s").map
          (fun c => SocialPage.commentTimeSeconds c.timestamp) = [600, 120] := by decide
      rw [hmap] at hs
      exact List.rel_of_sorted_cons hs 120 (List.mem_singleton.mpr rfl)
    exact absurd h600 (by decide)
